import Mathlib

/-!
Verification of the isp-checker probe-orchestration and scoring engine.

The Go source is shallowly embedded: float64 arithmetic is modelled over ℚ
(the literals 1.2, 0.8, 100, 60 and the divisions involved are exact in ℚ),
`map[string]interface{}` detail maps are modelled by association lists over a
dynamic-value type, and effectful probe bodies are modelled as pure functions
of an explicit environment recording what the OS / subprocess layer returned.
-/

namespace IspHc

/-- Status constants from probes (part_003): StatusOK = "ok", StatusWarn = "warn",
StatusFail = "fail", StatusNA = "na". Statuses are raw strings in the source. -/
def StatusOK : String := "ok"

/-- Status constant "warn". -/
def StatusWarn : String := "warn"

/-- Status constant "fail". -/
def StatusFail : String := "fail"

/-- Status constant "na". -/
def StatusNA : String := "na"

/-- SocketInfo (part_003, socket_stats probe): per-connection TCP statistics.
Fields not read by any embedded computation (State, RTTVarMs, SendQueue,
RecvQueue, CwndSegs) are carried for fidelity. -/
structure SocketInfo where
  Local : String
  Remote : String
  State : String
  RTTMs : ℚ
  RTTVarMs : ℚ
  Retransmits : ℤ
  SendQueue : ℤ
  RecvQueue : ℤ
  CwndSegs : ℤ
deriving DecidableEq

/-- Dynamic Go value stored in a `map[string]interface{}` details map.
Constructors cover the dynamic types the analyzer's type assertions test for;
`other` stands for a value of any further dynamic type (for example the
`[]SocketInfo` or `*TCPStats` structs stored under "sockets"/"stats" keys),
on which every one of the analyzer's type assertions fails. -/
inductive GoValue where
  | str : String → GoValue
  | num : ℚ → GoValue
  | strList : List String → GoValue
  | vList : List GoValue → GoValue
  | vMap : List (String × GoValue) → GoValue
  | other : GoValue

/-- Type assertion `.(float64)`. -/
def GoValue.asFloat : GoValue → Option ℚ
  | .num x => some x
  | _ => none

/-- Type assertion `.([]string)`. -/
def GoValue.asStrList : GoValue → Option (List String)
  | .strList l => some l
  | _ => none

/-- Type assertion `.([]interface{})`. -/
def GoValue.asVList : GoValue → Option (List GoValue)
  | .vList l => some l
  | _ => none

/-- Type assertion `.(map[string]interface{})`. -/
def GoValue.asVMap : GoValue → Option (List (String × GoValue))
  | .vMap m => some m
  | _ => none

/-- Details map of a probe result: `nil` or a Go map (keys unique, lookup only). -/
def Details := List (String × GoValue)

/-- Map lookup `d[k]` on a details map. -/
def lookupDetail (d : Details) (k : String) : Option GoValue :=
  (d.find? (fun kv => kv.1 = k)).map (fun kv => kv.2)

/-- Result (part_003): outcome of one probe execution. `status` is a raw string
in the source; `latencyMs` is 0 when the probe did not set it. -/
structure Result where
  name : String
  status : String
  latencyMs : ℚ
  details : Option Details
  error : String

/-- getProbeWeight (part_001): weight table for scoring, default 1.0. -/
def getProbeWeight (name : String) : ℚ :=
  if name = "ping" then 1.0
  else if name = "dns" then 1.0
  else if name = "traceroute" then 0.8
  else if name = "interface_stats" then 1.2
  else if name = "tcp_stats" then 1.2
  else if name = "socket_stats" then 0.8
  else if name = "packet_capture" then 1.0
  else 1.0

/-- Renders a nonnegative natural number zero-padded on the left to `n` digits,
helper for the fixed-point formatting below. -/
def padZeros (s : String) (n : Nat) : String :=
  String.mk (List.replicate (n - s.length) '0') ++ s

/-- Fixed-point decimal rendering of a rational, modelling Go's `%.Nf` verb
(round to nearest at the last kept digit). Only the shape of these strings
matters to the embedded code; no claim inspects the digits themselves. -/
def fmtFixed (prec : Nat) (x : ℚ) : String :=
  let n : ℤ := round (x * ((10 : ℚ) ^ prec))
  let sign := if n < 0 then "-" else ""
  let m := n.natAbs
  let ip := m / 10 ^ prec
  let fp := m % 10 ^ prec
  if prec = 0 then sign ++ toString ip
  else sign ++ toString ip ++ "." ++ padZeros (toString fp) prec

/-- formatDiagnosis (part_001): diagnostic message from a probe result. -/
def formatDiagnosis (p : Result) (severity : String) : String :=
  let message := if p.error = "" then p.name ++ " check " ++ severity else p.error
  "[" ++ severity ++ "] " ++ p.name ++ ": " ++ message

/-- extractDetailedDiagnosis (part_001): pulls specific issues from probe details. -/
def extractDetailedDiagnosis (p : Result) : List String :=
  match p.details with
  | none => []
  | some d =>
    let fromStrList :=
      match (lookupDetail d ("issues")).bind GoValue.asStrList with
      | some issues => issues.map (fun issue => "[" ++ p.name ++ "] " ++ issue)
      | none => []
    let fromVList :=
      match (lookupDetail d ("issues")).bind GoValue.asVList with
      | some issuesI =>
        issuesI.filterMap (fun issue =>
          match issue with
          | GoValue.str s => some ("[" ++ p.name ++ "] " ++ s)
          | _ => none)
      | none => []
    let specific :=
      if p.name = "interface_stats" then
        (match (lookupDetail d ("error_rate_percent")).bind GoValue.asFloat with
         | some errRate =>
           if errRate > 0.1 then
             ["[interface] packet error rate: " ++ fmtFixed 2 errRate ++ "% (check cables/NIC)"]
           else []
         | none => []) ++
        (match (lookupDetail d ("drop_rate_percent")).bind GoValue.asFloat with
         | some dropRate =>
           if dropRate > 0.1 then
             ["[interface] packet drop rate: " ++ fmtFixed 2 dropRate ++ "% (check buffer/congestion)"]
           else []
         | none => [])
      else if p.name = "tcp_stats" then
        (match (lookupDetail d ("retransmission_rate")).bind GoValue.asFloat with
         | some retrans =>
           if retrans > 1.0 then
             ["[tcp] retransmission rate: " ++ fmtFixed 2 retrans ++ "% (network congestion or loss)"]
           else []
         | none => []) ++
        (match (lookupDetail d ("out_of_order_rate")).bind GoValue.asFloat with
         | some ofo =>
           if ofo > 0.5 then
             ["[tcp] out-of-order rate: " ++ fmtFixed 2 ofo ++ "% (path instability)"]
           else []
         | none => [])
      else if p.name = "packet_capture" then
        match (lookupDetail d ("stats")).bind GoValue.asVMap with
        | some stats =>
          (match (lookupDetail stats ("checksum_errors")).bind GoValue.asFloat with
           | some cksum =>
             if cksum > 0 then
               ["[capture] checksum errors: " ++ fmtFixed 0 cksum ++ " (packet corruption detected)"]
             else []
           | none => []) ++
          (match (lookupDetail stats ("malformed_packets")).bind GoValue.asFloat with
           | some malformed =>
             if malformed > 0 then
               ["[capture] malformed packets: " ++ fmtFixed 0 malformed ++ " (protocol errors)"]
             else []
           | none => [])
        | none => []
      else []
    fromStrList ++ fromVList ++ specific

/-- generateSummary (part_001): human-readable summary from score band and results. -/
def generateSummary (score : ℚ) (results : List Result) : String :=
  let critical := (results.filter (fun p => p.status = StatusFail)).length
  let warnings := (results.filter (fun p => p.status = StatusWarn)).length
  let packetIssues := results.any (fun p =>
    (p.name = "interface_stats" ∨ p.name = "tcp_stats" ∨ p.name = "packet_capture") ∧
    p.status ≠ StatusOK ∧ p.status ≠ StatusNA)
  if score ≥ 90 then "Network health is excellent - all systems operational"
  else if score ≥ 70 then
    if packetIssues then
      "Network functional with packet-level issues (" ++ toString warnings ++ " warnings)"
    else
      "Network health is good with minor issues (" ++ toString warnings ++ " warnings)"
  else if score ≥ 50 then
    if packetIssues then
      "Network degraded - packet corruption or loss detected (" ++ toString critical
        ++ " critical, " ++ toString warnings ++ " warnings)"
    else
      "Network health degraded (" ++ toString critical ++ " critical issues, "
        ++ toString warnings ++ " warnings)"
  else
    if packetIssues then
      "Network severely impaired - significant packet issues detected ("
        ++ toString critical ++ " critical)"
    else
      "Network health critical (" ++ toString critical ++ " failures)"

/-- Loop body of Analyze (part_001): the Go loop first adds the probe's weight
to the running total weight, then dispatches on the status string (`switch`),
then appends extractDetailedDiagnosis. Accumulator is
(totalWeight, weightedScore, diag). -/
def analyzeStep (acc : ℚ × ℚ × List String) (p : Result) : ℚ × ℚ × List String :=
  if p.status = StatusOK then
    (acc.1 + getProbeWeight p.name,
     acc.2.1 + getProbeWeight p.name * 100,
     acc.2.2 ++ extractDetailedDiagnosis p)
  else if p.status = StatusWarn then
    (acc.1 + getProbeWeight p.name,
     acc.2.1 + getProbeWeight p.name * 60,
     acc.2.2 ++ [formatDiagnosis p ("warning")] ++ extractDetailedDiagnosis p)
  else if p.status = StatusFail then
    (acc.1 + getProbeWeight p.name,
     acc.2.1 + getProbeWeight p.name * 0,
     acc.2.2 ++ [formatDiagnosis p ("critical")] ++ extractDetailedDiagnosis p)
  else if p.status = StatusNA then
    (acc.1 + getProbeWeight p.name - getProbeWeight p.name,
     acc.2.1,
     acc.2.2 ++ extractDetailedDiagnosis p)
  else
    (acc.1 + getProbeWeight p.name,
     acc.2.1,
     acc.2.2 ++ [p.name ++ ": unknown status"] ++ extractDetailedDiagnosis p)

/-- Accumulated (totalWeight, weightedScore, diag) of Analyze's loop over a
probe-result list. -/
def analyzeTotals (results : List Result) : ℚ × ℚ × List String :=
  results.foldl analyzeStep (0, 0, [])

/-- Analyze (part_001): converts probe results into (score, summary, diagnosis).
The division is guarded by totalWeight > 0, falling back to score 0. -/
def Analyze (results : List Result) : ℚ × String × List String :=
  if results.isEmpty then
    (0, "no probes executed", ["no data"])
  else
    let acc := analyzeTotals results
    let score : ℚ := if acc.1 > 0 then acc.2.1 / acc.1 else 0
    let diag := if acc.2.2.isEmpty then ["all probes succeeded - no issues detected"]
                else acc.2.2
    (score, generateSummary score results, diag)

/-- DiagnosticResult (part_001): detailed diagnosis information. -/
structure DiagnosticResult where
  Component : String
  Confidence : ℚ
  Explanation : String
  SuggestedAction : String
  Severity : String

/-- analyzePing (part_001): any non-OK ping status yields one critical entry. -/
def analyzePing (p : Result) : List DiagnosticResult :=
  if p.status = StatusOK then []
  else
    [{ Component := "Connectivity"
       Confidence := 0.9
       Explanation := "Ping failed - target may be unreachable or blocking ICMP"
       SuggestedAction := "Check network connectivity, firewall rules, and target availability"
       Severity := "critical" }]

/-- analyzeDNS (part_001): any non-OK dns status yields one critical entry. -/
def analyzeDNS (p : Result) : List DiagnosticResult :=
  if p.status = StatusOK then []
  else
    [{ Component := "DNS"
       Confidence := 0.85
       Explanation := "DNS resolution failed"
       SuggestedAction := "Check DNS server configuration, try alternate DNS (8.8.8.8, 1.1.1.1)"
       Severity := "critical" }]

/-- Reads a float detail with Go's two-value type assertion defaulting to 0,
as in `errRate, _ := p.Details[k].(float64)`. -/
def floatDetail (d : Details) (k : String) : ℚ :=
  (((lookupDetail d k).bind GoValue.asFloat).getD 0)

/-- analyzeInterfaceStats (part_001): detail-based interface diagnostics. -/
def analyzeInterfaceStats (p : Result) : List DiagnosticResult :=
  match p.details with
  | none => []
  | some d =>
    let errRate := floatDetail d ("error_rate_percent")
    let dropRate := floatDetail d ("drop_rate_percent")
    (if errRate > 1.0 then
      [{ Component := "NetworkInterface"
         Confidence := 0.9
         Explanation := "High packet error rate (" ++ fmtFixed 2 errRate
           ++ "%) - likely hardware or cable issue"
         SuggestedAction := "Check network cable connections, test with different cable, check NIC health"
         Severity := "critical" }]
     else if errRate > 0.1 then
      [{ Component := "NetworkInterface"
         Confidence := 0.8
         Explanation := "Elevated packet error rate (" ++ fmtFixed 2 errRate
           ++ "%) - possible interference or degraded cable"
         SuggestedAction := "Inspect cables for damage, check for electromagnetic interference"
         Severity := "warning" }]
     else []) ++
    (if dropRate > 1.0 then
      [{ Component := "NetworkInterface"
         Confidence := 0.85
         Explanation := "High packet drop rate (" ++ fmtFixed 2 dropRate
           ++ "%) - buffer overflow or congestion"
         SuggestedAction := "Check for bandwidth saturation, increase ring buffer size, check for driver issues"
         Severity := "critical" }]
     else [])

/-- analyzeTCPStats (part_001): detail-based TCP diagnostics. -/
def analyzeTCPStats (p : Result) : List DiagnosticResult :=
  match p.details with
  | none => []
  | some d =>
    let retransRate := floatDetail d ("retransmission_rate")
    let ofoRate := floatDetail d ("out_of_order_rate")
    let reorderEvents := floatDetail d ("total_reorder_events")
    (if retransRate > 5.0 then
      [{ Component := "TCPTransport"
         Confidence := 0.9
         Explanation := "High TCP retransmission rate (" ++ fmtFixed 2 retransRate
           ++ "%) - significant packet loss on network path"
         SuggestedAction := "Check for network congestion, faulty equipment along path, or ISP issues"
         Severity := "critical" }]
     else if retransRate > 1.0 then
      [{ Component := "TCPTransport"
         Confidence := 0.85
         Explanation := "Elevated TCP retransmissions (" ++ fmtFixed 2 retransRate
           ++ "%) - some packet loss occurring"
         SuggestedAction := "Monitor for pattern (time of day, specific destinations), check local network first"
         Severity := "warning" }]
     else []) ++
    (if ofoRate > 1.0 ∨ reorderEvents > 100 then
      [{ Component := "TCPTransport"
         Confidence := 0.8
         Explanation := "Packet reordering detected (" ++ fmtFixed 2 ofoRate ++ "% OFO, "
           ++ fmtFixed 0 reorderEvents ++ " events) - path instability or load balancing"
         SuggestedAction := "This may indicate asymmetric routing or multi-path issues, typically not actionable"
         Severity := "warning" }]
     else [])

/-- analyzePacketCapture (part_001): diagnostics from capture statistics. -/
def analyzePacketCapture (p : Result) : List DiagnosticResult :=
  match p.details with
  | none => []
  | some d =>
    match (lookupDetail d ("stats")).bind GoValue.asVMap with
    | none => []
    | some stats =>
      let checksumErrors := floatDetail stats ("checksum_errors")
      let malformed := floatDetail stats ("malformed_packets")
      let retransmits := floatDetail stats ("tcp_retransmits")
      let ooo := floatDetail stats ("tcp_out_of_order")
      let zeroWindow := floatDetail stats ("tcp_zero_window")
      (if checksumErrors > 0 then
        [{ Component := "PacketIntegrity"
           Confidence := 0.95
           Explanation := "Checksum errors detected (" ++ fmtFixed 0 checksumErrors
             ++ " packets) - PACKET CORRUPTION occurring"
           SuggestedAction := "This is serious: check cables, NIC, switches. May indicate failing hardware"
           Severity := "critical" }]
       else []) ++
      (if malformed > 0 then
        [{ Component := "PacketIntegrity"
           Confidence := 0.9
           Explanation := "Malformed packets detected (" ++ fmtFixed 0 malformed
             ++ ") - protocol violations or corruption"
           SuggestedAction := "Check for MTU issues, middlebox interference, or faulty network equipment"
           Severity := "critical" }]
       else []) ++
      (if zeroWindow > 10 then
        [{ Component := "TCPFlow"
           Confidence := 0.85
           Explanation := "TCP zero window events (" ++ fmtFixed 0 zeroWindow
             ++ ") - receiver cannot keep up"
           SuggestedAction := "The receiving application is overwhelmed, check target server performance"
           Severity := "warning" }]
       else []) ++
      (if retransmits > 50 ∧ ooo > 20 then
        [{ Component := "NetworkPath"
           Confidence := 0.8
           Explanation := "High retransmits (" ++ fmtFixed 0 retransmits ++ ") with reordering ("
             ++ fmtFixed 0 ooo ++ ") - unstable network path"
           SuggestedAction := "Path is experiencing issues - could be congestion, flapping route, or failing link"
           Severity := "warning" }]
       else [])

/-- analyzeProbeResult (part_001): dispatch on the probe name. -/
def analyzeProbeResult (p : Result) : List DiagnosticResult :=
  if p.name = "ping" then analyzePing p
  else if p.name = "dns" then analyzeDNS p
  else if p.name = "interface_stats" then analyzeInterfaceStats p
  else if p.name = "tcp_stats" then analyzeTCPStats p
  else if p.name = "packet_capture" then analyzePacketCapture p
  else []

/-- Overall health entry appended by AnalyzeDetailed (part_001), chosen by score band. -/
def overallDiagnostic (score : ℚ) : DiagnosticResult :=
  if score ≥ 90 then
    { Component := "Overall"
      Confidence := 1.0
      Explanation := "All network probes completed successfully"
      SuggestedAction := "No action required - network is healthy"
      Severity := "info" }
  else if score ≥ 70 then
    { Component := "Overall"
      Confidence := 0.85
      Explanation := "Network is functional with minor issues"
      SuggestedAction := "Review warnings and monitor for patterns"
      Severity := "info" }
  else
    { Component := "Overall"
      Confidence := 0.9
      Explanation := "Network has significant issues requiring attention"
      SuggestedAction := "Address critical issues identified above"
      Severity := "warning" }

/-- AnalyzeDetailed (part_001): structured diagnostics; the score and summary are
those of Analyze, passed through unchanged. -/
def AnalyzeDetailed (results : List Result) : ℚ × String × List DiagnosticResult :=
  let t := Analyze results
  let diagnostics := results.flatMap analyzeProbeResult
  let diagnostics := diagnostics ++ [overallDiagnostic t.1]
  let diagnostics := diagnostics ++
    (t.2.2.filter (fun msg => msg ≠ "all probes succeeded - no issues detected")).map
      (fun msg =>
        { Component := "Network"
          Confidence := 0.8
          Explanation := msg
          SuggestedAction := "Review for potential issues"
          Severity := "info" })
  (t.1, t.2.1, diagnostics)

/-- Score assignment of ExecuteRun (part_005, lines 92-94):
`score, summary, detailedDiag := analyzer.AnalyzeDetailed(probeResults);
result.Score = score`. Given the concurrently collected probe-result list,
this is the value stored on RunResult.Score. -/
def executeRunScore (probeResults : List Result) : ℚ :=
  (AnalyzeDetailed probeResults).1

/-- Canonical score polarity defined by the spec (section 4.4 step 3): the spec's
canonical Run score is 100 minus the raw weighted health value returned by the
scorer, so that 0 = healthy and 100 = critical. Modelled from the spec for
comparison with what the code stores. -/
def canonicalScore (results : List Result) : ℚ :=
  100 - (Analyze results).1

/-- Probe functions referenced by the mode-selection table (part_005). -/
inductive ProbeFn where
  | RunPing
  | RunDNS
  | RunTraceroute
  | RunInterfaceStats
  | RunTCPStats
  | RunSocketStats
  | RunPacketCapture
deriving DecidableEq

/-- selectProbes (part_005): maps a lower-cased mode string to the probe set. -/
def selectProbes (mode : String) : List ProbeFn :=
  if mode = "ping" then [ProbeFn.RunPing]
  else if mode = "dns" then [ProbeFn.RunDNS]
  else if mode = "traceroute" then [ProbeFn.RunTraceroute]
  else if mode = "interface" ∨ mode = "interface_stats" then [ProbeFn.RunInterfaceStats]
  else if mode = "tcp" ∨ mode = "tcp_stats" then [ProbeFn.RunTCPStats]
  else if mode = "socket" ∨ mode = "socket_stats" then [ProbeFn.RunSocketStats]
  else if mode = "capture" ∨ mode = "packet_capture" then [ProbeFn.RunPacketCapture]
  else if mode = "packet" ∨ mode = "packet_health" then
    [ProbeFn.RunInterfaceStats, ProbeFn.RunTCPStats, ProbeFn.RunSocketStats,
     ProbeFn.RunPacketCapture]
  else if mode = "full" ∨ mode = "default" ∨ mode = "" then
    [ProbeFn.RunPing, ProbeFn.RunDNS, ProbeFn.RunTraceroute]
  else if mode = "comprehensive" ∨ mode = "all" then
    [ProbeFn.RunPing, ProbeFn.RunDNS, ProbeFn.RunTraceroute, ProbeFn.RunInterfaceStats,
     ProbeFn.RunTCPStats, ProbeFn.RunSocketStats, ProbeFn.RunPacketCapture]
  else []

/-- Go's strings.ToLower: per-character lower-casing of the string (identical in
behaviour to String.toLower, written as an explicit map so it evaluates). -/
def toLowerStr (s : String) : String :=
  String.mk (s.toList.map Char.toLower)

/-- Mode handling of ExecuteRun (part_005, lines 54-57): the mode is lower-cased,
selectProbes is consulted, and an empty selection is surfaced as the error
"unknown mode: <original mode>" instead of a Run. -/
def executeRunSelect (mode : String) : Except String (List ProbeFn) :=
  let selected := selectProbes (toLowerStr mode)
  if selected = [] then Except.error ("unknown mode: " ++ mode)
  else Except.ok selected

/-- Modelled from the spec: the recognized mode strings enumerated in section 4.1. -/
def recognizedModes : List String :=
  ["ping", "dns", "traceroute", "interface", "interface_stats", "tcp", "tcp_stats",
   "socket", "socket_stats", "capture", "packet_capture", "packet", "packet_health",
   "full", "default", "", "comprehensive", "all"]

/-- Modelled from the spec: the probe set that section 4.1 documents for each
recognized (lower-cased) mode string. -/
def specModeProbes (mode : String) : List ProbeFn :=
  if mode = "ping" then [ProbeFn.RunPing]
  else if mode = "dns" then [ProbeFn.RunDNS]
  else if mode = "traceroute" then [ProbeFn.RunTraceroute]
  else if mode = "interface" ∨ mode = "interface_stats" then [ProbeFn.RunInterfaceStats]
  else if mode = "tcp" ∨ mode = "tcp_stats" then [ProbeFn.RunTCPStats]
  else if mode = "socket" ∨ mode = "socket_stats" then [ProbeFn.RunSocketStats]
  else if mode = "capture" ∨ mode = "packet_capture" then [ProbeFn.RunPacketCapture]
  else if mode = "packet" ∨ mode = "packet_health" then
    [ProbeFn.RunInterfaceStats, ProbeFn.RunTCPStats, ProbeFn.RunSocketStats,
     ProbeFn.RunPacketCapture]
  else if mode = "full" ∨ mode = "default" ∨ mode = "" then
    [ProbeFn.RunPing, ProbeFn.RunDNS, ProbeFn.RunTraceroute]
  else if mode = "comprehensive" ∨ mode = "all" then
    [ProbeFn.RunPing, ProbeFn.RunDNS, ProbeFn.RunTraceroute, ProbeFn.RunInterfaceStats,
     ProbeFn.RunTCPStats, ProbeFn.RunSocketStats, ProbeFn.RunPacketCapture]
  else []

/-- Division as performed on Go float64 values with finite nonnegative operands:
the result is a finite number exactly when the divisor is nonzero (a zero
divisor yields +Inf or NaN, represented here by `none`). -/
def fdiv (a b : ℚ) : Option ℚ :=
  if b = 0 then none else some (a / b)

/-- InterfaceStats (interface_stats.go): the per-interface counters read by the
rate computation of RunInterfaceStats. Counters the computation never reads
(byte counts, FIFO, collisions, carrier, the remaining sysfs extras) are
omitted; they do not influence any embedded value. -/
structure InterfaceStats where
  Interface : String
  RxPackets : ℕ
  RxErrors : ℕ
  RxDropped : ℕ
  RxFrame : ℕ
  RxCRCErrors : ℕ
  TxPackets : ℕ
  TxErrors : ℕ
  TxDropped : ℕ

/-- Skip rule of RunInterfaceStats (interface_stats.go, lines 90-95): loopback
and virtual interfaces are excluded from the totals. -/
def skipInterface (s : InterfaceStats) : Bool :=
  s.Interface = "lo" || s.Interface.startsWith "veth"
    || s.Interface.startsWith "docker" || s.Interface.startsWith "br-"

/-- Totals loop of RunInterfaceStats (interface_stats.go, lines 85-108):
accumulates (totalErrors, totalDropped, totalPackets) over the non-skipped
interfaces. -/
def interfaceTotals (stats : List InterfaceStats) : ℕ × ℕ × ℕ :=
  stats.foldl
    (fun acc s =>
      if skipInterface s then acc
      else
        (acc.1 + (s.RxErrors + s.TxErrors + s.RxCRCErrors + s.RxFrame),
         acc.2.1 + (s.RxDropped + s.TxDropped),
         acc.2.2 + (s.RxPackets + s.TxPackets)))
    (0, 0, 0)

/-- error_rate_percent of RunInterfaceStats (interface_stats.go, lines 110-116):
`float64(totalErrors) / float64(totalPackets) * 100` under the guard
`totalPackets > 0`, else 0. -/
def interfaceErrorRate (stats : List InterfaceStats) : Option ℚ :=
  let t := interfaceTotals stats
  if 0 < t.2.2 then (fdiv (t.1 : ℚ) (t.2.2 : ℚ)).map (fun q => q * 100) else some 0

/-- drop_rate_percent of RunInterfaceStats (interface_stats.go, lines 110-116). -/
def interfaceDropRate (stats : List InterfaceStats) : Option ℚ :=
  let t := interfaceTotals stats
  if 0 < t.2.2 then (fdiv (t.2.1 : ℚ) (t.2.2 : ℚ)).map (fun q => q * 100) else some 0

/-- TCPStats (part_002): the counters read by the rate computation of
RunTCPStats. The many further counters of the Go struct (reorder, DSACK,
abort, memory-pressure families) feed only issue strings and are omitted. -/
structure TCPStats where
  InSegs : ℕ
  OutSegs : ℕ
  RetransSegs : ℕ
  InErrs : ℕ
  TCPOFOQueue : ℕ

/-- retransmission_rate of RunTCPStats (part_002, lines 92-99): guarded by
`totalSegs > 0` where `totalSegs = InSegs + OutSegs`, but the division itself
is `float64(RetransSegs) / float64(OutSegs) * 100`. -/
def tcpRetransRate (s : TCPStats) : Option ℚ :=
  if 0 < s.InSegs + s.OutSegs then
    (fdiv (s.RetransSegs : ℚ) (s.OutSegs : ℚ)).map (fun q => q * 100)
  else some 0

/-- error_rate of RunTCPStats (part_002, lines 92-99): guarded by
`totalSegs > 0`, dividing `float64(InErrs) / float64(InSegs) * 100`. -/
def tcpErrorRate (s : TCPStats) : Option ℚ :=
  if 0 < s.InSegs + s.OutSegs then
    (fdiv (s.InErrs : ℚ) (s.InSegs : ℚ)).map (fun q => q * 100)
  else some 0

/-- out_of_order_rate of RunTCPStats (part_002, lines 102-106): guarded by
`InSegs > 0`, dividing `float64(TCPOFOQueue) / float64(InSegs) * 100`. -/
def tcpOfoRate (s : TCPStats) : Option ℚ :=
  if 0 < s.InSegs then
    (fdiv (s.TCPOFOQueue : ℚ) (s.InSegs : ℚ)).map (fun q => q * 100)
  else some 0

/-- Environment of RunPing (part_002): what the OS layer returned during one
execution. `ctxDeadlineExceeded` is whether `ctx.Err()` is DeadlineExceeded
after the command ran; `cmdFailed`/`cmdOutput` are the combined-output call's
error flag and captured output. -/
structure PingEnv where
  binaryFound : Bool
  ctxDeadlineExceeded : Bool
  cmdFailed : Bool
  cmdOutput : String
  elapsedMs : ℚ

/-- RunPing (part_002): LookPath miss gives NA; a deadline-exceeded context
gives FAIL "ping timeout"; any other command error gives FAIL with the
trimmed output; otherwise OK with the elapsed latency. -/
def RunPing (env : PingEnv) : Result :=
  if ¬ env.binaryFound then
    { name := "ping", status := StatusNA, latencyMs := 0, details := none,
      error := "ping binary not available" }
  else if env.ctxDeadlineExceeded then
    { name := "ping", status := StatusFail, latencyMs := 0, details := none,
      error := "ping timeout" }
  else if env.cmdFailed then
    { name := "ping", status := StatusFail, latencyMs := 0, details := none,
      error := env.cmdOutput.trim }
  else
    { name := "ping", status := StatusOK, latencyMs := env.elapsedMs,
      details := some [("raw", GoValue.str env.cmdOutput)], error := "" }

/-- Environment of RunTraceroute (interface_stats.go, lines 245-270). -/
structure TracerouteEnv where
  binaryFound : Bool
  ctxDeadlineExceeded : Bool
  cmdFailed : Bool
  cmdOutput : String
  elapsedMs : ℚ

/-- RunTraceroute (interface_stats.go): mirrors RunPing with the traceroute
binary and the message "traceroute timeout". -/
def RunTraceroute (env : TracerouteEnv) : Result :=
  if ¬ env.binaryFound then
    { name := "traceroute", status := StatusNA, latencyMs := 0, details := none,
      error := "traceroute/tracepath not available" }
  else if env.ctxDeadlineExceeded then
    { name := "traceroute", status := StatusFail, latencyMs := 0, details := none,
      error := "traceroute timeout" }
  else if env.cmdFailed then
    { name := "traceroute", status := StatusFail, latencyMs := 0, details := none,
      error := env.cmdOutput.trim }
  else
    { name := "traceroute", status := StatusOK, latencyMs := env.elapsedMs,
      details := some [("raw", GoValue.str env.cmdOutput)], error := "" }

/-- Environment of RunDNS (dns.go): `lookupErr` is `err.Error()` of the
resolver error when LookupHost failed (the raw Go error string; when the
context deadline has expired the resolver always fails and this is the
resolver's own cancellation message). `ctxDeadlineExceeded` records whether
the supplied deadline had expired; the code never inspects it. -/
structure DNSEnv where
  ctxDeadlineExceeded : Bool
  lookupErr : Option String
  elapsedMs : ℚ

/-- RunDNS (dns.go): a failed lookup yields FAIL carrying the raw resolver
error string; success yields OK with the elapsed latency. -/
def RunDNS (env : DNSEnv) : Result :=
  match env.lookupErr with
  | some e =>
      { name := "dns", status := StatusFail, latencyMs := 0, details := none, error := e }
  | none =>
      { name := "dns", status := StatusOK, latencyMs := env.elapsedMs, details := none,
        error := "" }

/-- Environment of RunSocketStats (part_003): platform flag, LookPath result
for ss, the error of `cmd.Output()` if any (its `%v` rendering), and the
socket list that parseSocketStats produced from the command's output (the
text parsing itself is abstracted as this input). -/
structure SocketStatsEnv where
  goosLinux : Bool
  ssFound : Bool
  cmdErr : Option String
  sockets : List SocketInfo

/-- Loop body of RunSocketStats' analysis (part_003): a socket with more than
5 retransmits forces status "warn" and adds an issue line; a socket with RTT
above 200ms adds an issue line without touching the status. -/
def socketStep (acc : String × List String) (s : SocketInfo) : String × List String :=
  let acc1 :=
    if s.Retransmits > 5 then
      (StatusWarn,
       acc.2 ++ ["socket " ++ s.Local ++ "->" ++ s.Remote ++ ": "
         ++ toString s.Retransmits ++ " retransmits"])
    else acc
  if s.RTTMs > 200 then
    (acc1.1,
     acc1.2 ++ ["socket " ++ s.Local ++ "->" ++ s.Remote ++ ": high RTT "
       ++ fmtFixed 1 s.RTTMs ++ "ms"])
  else acc1

/-- Status-and-issues loop of RunSocketStats (part_003), starting from OK. -/
def socketLoop (stats : List SocketInfo) : String × List String :=
  stats.foldl socketStep (StatusOK, [])

/-- RunSocketStats (part_003): non-Linux or missing ss gives NA; a failed ss
invocation gives FAIL; otherwise the parsed sockets are analyzed, giving
WARN when some socket has more than 5 retransmits and OK otherwise. -/
def RunSocketStats (env : SocketStatsEnv) : Result :=
  if ¬ env.goosLinux then
    { name := "socket_stats", status := StatusNA, latencyMs := 0, details := none,
      error := "socket stats only supported on Linux" }
  else if ¬ env.ssFound then
    { name := "socket_stats", status := StatusNA, latencyMs := 0, details := none,
      error := "ss command not available" }
  else
    match env.cmdErr with
    | some e =>
        { name := "socket_stats", status := StatusFail, latencyMs := 0, details := none,
          error := "ss command failed: " ++ e }
    | none =>
        let r := socketLoop env.sockets
        { name := "socket_stats", status := r.1, latencyMs := 0,
          details := some [("sockets", GoValue.other), ("issues", GoValue.strList r.2)],
          error := "" }

/-- Weight a probe result contributes to Analyze's denominator: NA probes end
up contributing nothing, every other status keeps the full probe weight. -/
def countedWeight (p : Result) : ℚ :=
  if p.status = StatusNA then 0 else getProbeWeight p.name

/-- Points a probe result contributes to Analyze's weighted accumulator. -/
def points (p : Result) : ℚ :=
  if p.status = StatusOK then getProbeWeight p.name * 100
  else if p.status = StatusWarn then getProbeWeight p.name * 60
  else 0

/-- Diagnosis lines one probe result contributes inside Analyze's loop. -/
def diagOf (p : Result) : List String :=
  (if p.status = StatusOK then []
   else if p.status = StatusWarn then [formatDiagnosis p ("warning")]
   else if p.status = StatusFail then [formatDiagnosis p ("critical")]
   else if p.status = StatusNA then []
   else [p.name ++ ": unknown status"]) ++ extractDetailedDiagnosis p

lemma getProbeWeight_pos (name : String) : 0 < getProbeWeight name := by
  unfold getProbeWeight
  split_ifs <;> norm_num

lemma countedWeight_nonneg (p : Result) : 0 ≤ countedWeight p := by
  unfold countedWeight
  split_ifs
  · exact le_refl 0
  · exact (getProbeWeight_pos p.name).le

lemma points_nonneg (p : Result) : 0 ≤ points p := by
  unfold points
  have h := (getProbeWeight_pos p.name).le
  split_ifs <;> positivity

lemma points_le_counted (p : Result) : points p ≤ 100 * countedWeight p := by
  have h := getProbeWeight_pos p.name
  unfold points countedWeight
  by_cases hna : p.status = StatusNA
  · have hok : p.status ≠ StatusOK := by rw [hna]; decide
    have hwarn : p.status ≠ StatusWarn := by rw [hna]; decide
    rw [if_pos hna, if_neg hok, if_neg hwarn]
    simp
  · rw [if_neg hna]
    by_cases hok : p.status = StatusOK
    · rw [if_pos hok]
      linarith
    · rw [if_neg hok]
      by_cases hwarn : p.status = StatusWarn
      · rw [if_pos hwarn]
        linarith
      · rw [if_neg hwarn]
        linarith

lemma analyzeStep_fst (acc : ℚ × ℚ × List String) (p : Result) :
    (analyzeStep acc p).1 = acc.1 + countedWeight p := by
  unfold analyzeStep countedWeight
  split_ifs with h1 h2 h3 h4 <;> simp_all [StatusOK, StatusWarn, StatusFail, StatusNA]

lemma analyzeStep_snd (acc : ℚ × ℚ × List String) (p : Result) :
    (analyzeStep acc p).2.1 = acc.2.1 + points p := by
  unfold analyzeStep points
  split_ifs with h1 h2 h3 h4 <;> simp_all [StatusOK, StatusWarn, StatusFail, StatusNA]

lemma analyzeStep_diag (acc : ℚ × ℚ × List String) (p : Result) :
    (analyzeStep acc p).2.2 = acc.2.2 ++ diagOf p := by
  unfold analyzeStep diagOf
  split_ifs with h1 h2 h3 h4 <;> simp_all [StatusOK, StatusWarn, StatusFail, StatusNA]

lemma analyzeFold_fst (rs : List Result) (acc : ℚ × ℚ × List String) :
    (rs.foldl analyzeStep acc).1 = acc.1 + (rs.map countedWeight).sum := by
  induction rs generalizing acc with
  | nil => simp
  | cons p rest ih =>
      rw [List.foldl_cons, ih, analyzeStep_fst]
      simp [add_assoc]

lemma analyzeFold_snd (rs : List Result) (acc : ℚ × ℚ × List String) :
    (rs.foldl analyzeStep acc).2.1 = acc.2.1 + (rs.map points).sum := by
  induction rs generalizing acc with
  | nil => simp
  | cons p rest ih =>
      rw [List.foldl_cons, ih, analyzeStep_snd]
      simp [add_assoc]

lemma analyzeFold_diag (rs : List Result) (acc : ℚ × ℚ × List String) :
    (rs.foldl analyzeStep acc).2.2 = acc.2.2 ++ rs.flatMap diagOf := by
  induction rs generalizing acc with
  | nil => simp
  | cons p rest ih =>
      rw [List.foldl_cons, ih, analyzeStep_diag]
      simp

lemma analyzeTotals_fst (rs : List Result) :
    (analyzeTotals rs).1 = (rs.map countedWeight).sum := by
  unfold analyzeTotals
  rw [analyzeFold_fst]
  simp

lemma analyzeTotals_snd (rs : List Result) :
    (analyzeTotals rs).2.1 = (rs.map points).sum := by
  unfold analyzeTotals
  rw [analyzeFold_snd]
  simp

lemma analyzeTotals_diag (rs : List Result) :
    (analyzeTotals rs).2.2 = rs.flatMap diagOf := by
  unfold analyzeTotals
  rw [analyzeFold_diag]
  simp

lemma Analyze_score (rs : List Result) :
    (Analyze rs).1 =
      if 0 < (rs.map countedWeight).sum then
        (rs.map points).sum / (rs.map countedWeight).sum
      else 0 := by
  unfold Analyze
  cases rs with
  | nil => simp
  | cons p rest =>
      simp only [List.isEmpty_cons, Bool.false_eq_true, if_false,
        analyzeTotals_fst, analyzeTotals_snd, gt_iff_lt]

lemma counted_sum_nonneg (rs : List Result) : 0 ≤ (rs.map countedWeight).sum := by
  apply List.sum_nonneg
  intro x hx
  obtain ⟨p, _, rfl⟩ := List.mem_map.mp hx
  exact countedWeight_nonneg p

lemma points_sum_nonneg (rs : List Result) : 0 ≤ (rs.map points).sum := by
  apply List.sum_nonneg
  intro x hx
  obtain ⟨p, _, rfl⟩ := List.mem_map.mp hx
  exact points_nonneg p

lemma points_sum_le (rs : List Result) :
    (rs.map points).sum ≤ 100 * (rs.map countedWeight).sum := by
  induction rs with
  | nil => simp
  | cons p rest ih =>
      simp only [List.map_cons, List.sum_cons, mul_add]
      exact add_le_add (points_le_counted p) ih

/-- Boolean infix-occurrence test on character lists, helper for `strContains`. -/
def listContainsSeq (l pat : List Char) : Bool :=
  (List.range (l.length + 1)).any (fun i => decide ((l.drop i).take pat.length = pat))

/-- Substring test used to state the timeout-message properties. -/
def strContains (s pat : String) : Bool :=
  listContainsSeq s.toList pat.toList

/-- C1 (counterexample): on the single healthy probe result ping/OK the scorer's
raw weighted health value is 100, so 100 - raw is 0, yet ExecuteRun stores 100
on RunResult.Score: the stored score is not 100 minus the raw health value. -/
theorem run_score_not_inverted :
    executeRunScore
        [{ name := "ping", status := "ok", latencyMs := 10, details := none, error := "" }]
      = 100 ∧
    100 - (Analyze
        [{ name := "ping", status := "ok", latencyMs := 10, details := none, error := "" }]).1
      = 0 ∧
    executeRunScore
        [{ name := "ping", status := "ok", latencyMs := 10, details := none, error := "" }]
      ≠ 100 - (Analyze
        [{ name := "ping", status := "ok", latencyMs := 10, details := none, error := "" }]).1 := by
  have hscore : (Analyze
      [{ name := "ping", status := "ok", latencyMs := 10, details := none,
         error := "" }]).1 = 100 := by
    rw [Analyze_score]
    simp +decide [countedWeight, points, getProbeWeight, StatusNA, StatusOK]
    norm_num
  refine ⟨?_, ?_, ?_⟩
  · show (Analyze
        [{ name := "ping", status := "ok", latencyMs := 10, details := none,
           error := "" }]).1 = 100
    exact hscore
  · rw [hscore]
    norm_num
  · show (Analyze
        [{ name := "ping", status := "ok", latencyMs := 10, details := none,
           error := "" }]).1 ≠ 100 - (Analyze
        [{ name := "ping", status := "ok", latencyMs := 10, details := none,
           error := "" }]).1
    rw [hscore]
    norm_num

/-- C1 (amended): for every probe-result list, the value ExecuteRun assigns to
RunResult.Score equals the raw weighted health value computed by the scorer
itself (100 = healthy), with no 100-minus-raw inversion applied. -/
theorem run_score_is_raw (probeResults : List Result) :
    executeRunScore probeResults = (Analyze probeResults).1 := rfl

/-- C2: for every list of probe results (any statuses, any names), the score
returned by analyzer.Analyze satisfies 0 ≤ score ≤ 100, and that same score is
the one AnalyzeDetailed returns and ExecuteRun stores on the Run. -/
theorem score_bounds (results : List Result) :
    0 ≤ (Analyze results).1 ∧ (Analyze results).1 ≤ 100 ∧
    (AnalyzeDetailed results).1 = (Analyze results).1 ∧
    executeRunScore results = (Analyze results).1 := by
  refine ⟨?_, ?_, rfl, rfl⟩ <;> rw [Analyze_score]
  · by_cases hT : 0 < (results.map countedWeight).sum
    · rw [if_pos hT]
      exact div_nonneg (points_sum_nonneg results) hT.le
    · rw [if_neg hT]
  · by_cases hT : 0 < (results.map countedWeight).sum
    · rw [if_pos hT, div_le_iff₀ hT]
      exact points_sum_le results
    · rw [if_neg hT]
      norm_num

/-- C3: when every probe in the list has status NA, the total weight is 0, the
guarded division is skipped, and Analyze returns the same score (0) as for the
empty probe list. -/
theorem na_probes_excluded (results : List Result)
    (h : ∀ p ∈ results, p.status = StatusNA) :
    (analyzeTotals results).1 = 0 ∧ (Analyze results).1 = 0 ∧
    (Analyze results).1 = (Analyze []).1 := by
  have hsum : (results.map countedWeight).sum = 0 := by
    apply List.sum_eq_zero
    intro x hx
    obtain ⟨p, hp, rfl⟩ := List.mem_map.mp hx
    unfold countedWeight
    rw [if_pos (h p hp)]
  refine ⟨by rw [analyzeTotals_fst, hsum], ?_, ?_⟩
  · rw [Analyze_score, hsum]
    simp
  · rw [Analyze_score, hsum]
    simp [Analyze]

/-- C3 (witness): a concrete all-NA probe list scores 0, contributes zero total
weight, and matches the empty-list score. -/
theorem na_probes_excluded_witness :
    (analyzeTotals
        [{ name := "interface_stats", status := "na", latencyMs := 0, details := none,
           error := "interface stats only supported on Linux" },
         { name := "tcp_stats", status := "na", latencyMs := 0, details := none,
           error := "TCP stats only supported on Linux" }]).1 = 0 ∧
    (Analyze
        [{ name := "interface_stats", status := "na", latencyMs := 0, details := none,
           error := "interface stats only supported on Linux" },
         { name := "tcp_stats", status := "na", latencyMs := 0, details := none,
           error := "TCP stats only supported on Linux" }]).1 = 0 ∧
    (Analyze
        [{ name := "interface_stats", status := "na", latencyMs := 0, details := none,
           error := "interface stats only supported on Linux" },
         { name := "tcp_stats", status := "na", latencyMs := 0, details := none,
           error := "TCP stats only supported on Linux" }]).1 = (Analyze []).1 :=
  na_probes_excluded _ (by
    intro p hp
    simp only [List.mem_cons, List.not_mem_nil, or_false] at hp
    rcases hp with rfl | rfl <;> rfl)

/-- C4: the scorer's weight table is exactly the documented one (1.2 for
interface_stats and tcp_stats, 0.8 for traceroute and socket_stats, 1.0 for
every other name), and one loop step of Analyze adds weight*100 for OK,
weight*60 for WARN, 0 for FAIL (weight kept in the total), and leaves both
accumulators unchanged for NA. -/
theorem weight_table_and_contributions (name err : String) (lat : ℚ)
    (det : Option Details) (acc : ℚ × ℚ × List String) :
    getProbeWeight name =
      (if name = "interface_stats" ∨ name = "tcp_stats" then 1.2
       else if name = "traceroute" ∨ name = "socket_stats" then 0.8
       else 1.0) ∧
    (analyzeStep acc
        { name := name, status := StatusOK, latencyMs := lat, details := det,
          error := err }).1 = acc.1 + getProbeWeight name ∧
    (analyzeStep acc
        { name := name, status := StatusOK, latencyMs := lat, details := det,
          error := err }).2.1 = acc.2.1 + getProbeWeight name * 100 ∧
    (analyzeStep acc
        { name := name, status := StatusWarn, latencyMs := lat, details := det,
          error := err }).1 = acc.1 + getProbeWeight name ∧
    (analyzeStep acc
        { name := name, status := StatusWarn, latencyMs := lat, details := det,
          error := err }).2.1 = acc.2.1 + getProbeWeight name * 60 ∧
    (analyzeStep acc
        { name := name, status := StatusFail, latencyMs := lat, details := det,
          error := err }).1 = acc.1 + getProbeWeight name ∧
    (analyzeStep acc
        { name := name, status := StatusFail, latencyMs := lat, details := det,
          error := err }).2.1 = acc.2.1 ∧
    (analyzeStep acc
        { name := name, status := StatusNA, latencyMs := lat, details := det,
          error := err }).1 = acc.1 ∧
    (analyzeStep acc
        { name := name, status := StatusNA, latencyMs := lat, details := det,
          error := err }).2.1 = acc.2.1 := by
  refine ⟨?_, ?_, ?_, ?_, ?_, ?_, ?_, ?_, ?_⟩
  · unfold getProbeWeight
    split_ifs <;> simp_all
  all_goals
    first
      | (rw [analyzeStep_fst]
         simp [countedWeight, StatusOK, StatusWarn, StatusFail, StatusNA])
      | (rw [analyzeStep_snd]
         simp [points, StatusOK, StatusWarn, StatusFail, StatusNA])

lemma Analyze_diag (rs : List Result) (h : rs ≠ []) :
    (Analyze rs).2.2 =
      if (rs.flatMap diagOf).isEmpty then ["all probes succeeded - no issues detected"]
      else rs.flatMap diagOf := by
  unfold Analyze
  rw [if_neg (by simpa using h)]
  simp only [analyzeTotals_diag]

/-- C9: replacing one OK probe result with a FAIL result of the same probe name
(all other results unchanged) strictly raises the canonical 0-healthy /
100-critical score. -/
theorem ok_to_fail_strictly_raises_canonical (pre post : List Result)
    (name err : String) (lat : ℚ) (det : Option Details) :
    canonicalScore (pre ++
        { name := name, status := StatusOK, latencyMs := lat, details := det,
          error := err } :: post)
      < canonicalScore (pre ++
        { name := name, status := StatusFail, latencyMs := lat, details := det,
          error := err } :: post) := by
  have hw := getProbeWeight_pos name
  have hA := counted_sum_nonneg pre
  have hB := counted_sum_nonneg post
  have c1 : countedWeight
      { name := name, status := StatusOK, latencyMs := lat, details := det,
        error := err } = getProbeWeight name := by
    simp +decide [countedWeight, StatusOK, StatusNA]
  have c2 : countedWeight
      { name := name, status := StatusFail, latencyMs := lat, details := det,
        error := err } = getProbeWeight name := by
    simp +decide [countedWeight, StatusFail, StatusNA]
  have p1 : points
      { name := name, status := StatusOK, latencyMs := lat, details := det,
        error := err } = getProbeWeight name * 100 := by
    simp +decide [points, StatusOK]
  have p2 : points
      { name := name, status := StatusFail, latencyMs := lat, details := det,
        error := err } = 0 := by
    simp +decide [points, StatusOK, StatusWarn, StatusFail]
  unfold canonicalScore
  rw [Analyze_score, Analyze_score]
  simp only [List.map_append, List.map_cons, List.sum_append, List.sum_cons,
    c1, c2, p1, p2]
  have hT : 0 < (pre.map countedWeight).sum +
      (getProbeWeight name + (post.map countedWeight).sum) := by linarith
  rw [if_pos hT, if_pos hT]
  have h100 : 0 < getProbeWeight name * 100 := by
    have := mul_pos hw (show (0:ℚ) < 100 by norm_num)
    linarith
  have hnum : (pre.map points).sum + (0 + (post.map points).sum)
      < (pre.map points).sum + (getProbeWeight name * 100 + (post.map points).sum) := by
    linarith
  have hfrac := (div_lt_div_iff_of_pos_right hT).mpr hnum
  linarith [hfrac]

/-- C10: a probe result whose status string is none of "ok", "warn", "fail",
"na" keeps its full weight in the denominator while contributing zero points,
hence appending such a probe can only lower (and, when the score was positive,
strictly lowers) the returned health score, and the diagnosis list gains the
line "name: unknown status". -/
theorem unknown_status_scored_like_fail (results : List Result) (p : Result)
    (h1 : p.status ≠ StatusOK) (h2 : p.status ≠ StatusWarn)
    (h3 : p.status ≠ StatusFail) (h4 : p.status ≠ StatusNA) :
    (analyzeTotals (results ++ [p])).1
        = (analyzeTotals results).1 + getProbeWeight p.name ∧
    (analyzeTotals (results ++ [p])).2.1 = (analyzeTotals results).2.1 ∧
    (Analyze (results ++ [p])).1 ≤ (Analyze results).1 ∧
    (0 < (Analyze results).1 → (Analyze (results ++ [p])).1 < (Analyze results).1) ∧
    (p.name ++ ": unknown status") ∈ (Analyze (results ++ [p])).2.2 := by
  have hcw : countedWeight p = getProbeWeight p.name := by
    unfold countedWeight
    rw [if_neg h4]
  have hpts : points p = 0 := by
    unfold points
    rw [if_neg h1, if_neg h2]
  have hw := getProbeWeight_pos p.name
  have hT0 := counted_sum_nonneg results
  have hS0 := points_sum_nonneg results
  have hSle := points_sum_le results
  have hsum1 : ((results ++ [p]).map countedWeight).sum
      = (results.map countedWeight).sum + getProbeWeight p.name := by
    simp [List.map_append, List.sum_append, hcw]
  have hsum2 : ((results ++ [p]).map points).sum = (results.map points).sum := by
    simp [List.map_append, List.sum_append, hpts]
  have hscore_app : (Analyze (results ++ [p])).1 =
      (results.map points).sum / ((results.map countedWeight).sum + getProbeWeight p.name) := by
    rw [Analyze_score, hsum1, hsum2, if_pos (by linarith)]
  refine ⟨?_, ?_, ?_, ?_, ?_⟩
  · rw [analyzeTotals_fst, analyzeTotals_fst, hsum1]
  · rw [analyzeTotals_snd, analyzeTotals_snd, hsum2]
  · rw [hscore_app, Analyze_score]
    by_cases hT : 0 < (results.map countedWeight).sum
    · rw [if_pos hT]
      exact div_le_div_of_nonneg_left hS0 hT (by linarith)
    · rw [if_neg hT]
      have hTz : (results.map countedWeight).sum = 0 := le_antisymm (not_lt.mp hT) hT0
      have hSz : (results.map points).sum = 0 := by
        rw [hTz] at hSle
        simpa using le_antisymm (by simpa using hSle) hS0
      rw [hSz]
      simp
  · intro hpos
    rw [Analyze_score] at hpos
    by_cases hT : 0 < (results.map countedWeight).sum
    · rw [hscore_app, Analyze_score, if_pos hT]
      rw [if_pos hT] at hpos
      have hS : 0 < (results.map points).sum := by
        by_contra hc
        push_neg at hc
        have : (results.map points).sum / (results.map countedWeight).sum ≤ 0 :=
          div_nonpos_of_nonpos_of_nonneg hc hT0
        linarith
      exact div_lt_div_of_pos_left hS hT (by linarith)
    · rw [if_neg hT] at hpos
      linarith
  · have hne : (results ++ [p]) ≠ [] := by simp
    have hmem' : (p.name ++ ": unknown status") ∈ (results ++ [p]).flatMap diagOf := by
      apply List.mem_flatMap.mpr
      refine ⟨p, by simp, ?_⟩
      unfold diagOf
      rw [if_neg h1, if_neg h2, if_neg h3, if_neg h4]
      simp
    rw [Analyze_diag _ hne, if_neg (by simpa using List.ne_nil_of_mem hmem')]
    exact hmem'

/-- C10 (witness): appending a probe with the unrecognized status "bogus" to a
single healthy ping result keeps its weight in the denominator, adds no
points, lowers the score, and emits the unknown-status diagnosis line. -/
theorem unknown_status_scored_like_fail_witness :
    (analyzeTotals
        ([{ name := "ping", status := "ok", latencyMs := 10, details := none, error := "" }] ++
          [{ name := "myprobe", status := "bogus", latencyMs := 0, details := none,
             error := "" }])).1
      = (analyzeTotals
          [{ name := "ping", status := "ok", latencyMs := 10, details := none,
             error := "" }]).1 + getProbeWeight "myprobe" ∧
    (analyzeTotals
        ([{ name := "ping", status := "ok", latencyMs := 10, details := none, error := "" }] ++
          [{ name := "myprobe", status := "bogus", latencyMs := 0, details := none,
             error := "" }])).2.1
      = (analyzeTotals
          [{ name := "ping", status := "ok", latencyMs := 10, details := none,
             error := "" }]).2.1 ∧
    (Analyze
        ([{ name := "ping", status := "ok", latencyMs := 10, details := none, error := "" }] ++
          [{ name := "myprobe", status := "bogus", latencyMs := 0, details := none,
             error := "" }])).1
      ≤ (Analyze
          [{ name := "ping", status := "ok", latencyMs := 10, details := none,
             error := "" }]).1 ∧
    (0 < (Analyze
          [{ name := "ping", status := "ok", latencyMs := 10, details := none,
             error := "" }]).1 →
      (Analyze
        ([{ name := "ping", status := "ok", latencyMs := 10, details := none, error := "" }] ++
          [{ name := "myprobe", status := "bogus", latencyMs := 0, details := none,
             error := "" }])).1
      < (Analyze
          [{ name := "ping", status := "ok", latencyMs := 10, details := none,
             error := "" }]).1) ∧
    (("myprobe" : String) ++ ": unknown status") ∈ (Analyze
        ([{ name := "ping", status := "ok", latencyMs := 10, details := none, error := "" }] ++
          [{ name := "myprobe", status := "bogus", latencyMs := 0, details := none,
             error := "" }])).2.2 :=
  unknown_status_scored_like_fail _ _ (by decide) (by decide) (by decide) (by decide)

lemma selectProbes_unrecognized (s : String) (h : s ∉ recognizedModes) :
    selectProbes s = [] := by
  simp only [recognizedModes, List.mem_cons, List.not_mem_nil, or_false] at h
  push_neg at h
  obtain ⟨h1, h2, h3, h4, h5, h6, h7, h8, h9, h10, h11, h12, h13, h14, h15, h16, h17, h18⟩ := h
  simp [selectProbes, h1, h2, h3, h4, h5, h6, h7, h8, h9, h10, h11, h12, h13, h14, h15,
    h16, h17, h18]

/-- C5: for every mode string whose lower-casing is one of the recognized modes
of the documented table, ExecuteRun's selection step yields exactly the
documented non-empty probe set, and for every other mode string it yields the
unknown-mode error instead of a Run. -/
theorem mode_selection_complete (mode : String) :
    (toLowerStr mode ∈ recognizedModes →
      executeRunSelect mode = Except.ok (specModeProbes (toLowerStr mode)) ∧
      specModeProbes (toLowerStr mode) ≠ []) ∧
    (toLowerStr mode ∉ recognizedModes →
      executeRunSelect mode = Except.error ("unknown mode: " ++ mode)) := by
  constructor
  · intro h
    have hsel : selectProbes (toLowerStr mode) = specModeProbes (toLowerStr mode) ∧
        specModeProbes (toLowerStr mode) ≠ [] := by
      simp only [recognizedModes, List.mem_cons, List.not_mem_nil, or_false] at h
      rcases h with h|h|h|h|h|h|h|h|h|h|h|h|h|h|h|h|h|h <;> rw [h] <;> exact ⟨rfl, by decide⟩
    refine ⟨?_, hsel.2⟩
    simp only [executeRunSelect]
    rw [hsel.1, if_neg hsel.2]
  · intro h
    have hsel := selectProbes_unrecognized _ h
    simp only [executeRunSelect]
    rw [hsel, if_pos rfl]

/-- C5 (witness): the recognized mode "PING" (case-insensitive) selects exactly
the ping probe, and the unrecognized mode "bogus" yields the unknown-mode
error. -/
theorem mode_selection_complete_witness :
    (toLowerStr "PING" ∈ recognizedModes ∧
      executeRunSelect "PING" = Except.ok (specModeProbes (toLowerStr "PING")) ∧
      specModeProbes (toLowerStr "PING") ≠ []) ∧
    (toLowerStr "bogus" ∉ recognizedModes ∧
      executeRunSelect "bogus" = Except.error ("unknown mode: " ++ "bogus")) := by
  have h1 : toLowerStr "PING" ∈ recognizedModes := by decide
  have h2 : toLowerStr "bogus" ∉ recognizedModes := by decide
  have w1 := (mode_selection_complete "PING").1 h1
  have w2 := (mode_selection_complete "bogus").2 h2
  exact ⟨⟨h1, w1.1, w1.2⟩, ⟨h2, w2⟩⟩

lemma socketStep_fst (acc : String × List String) (s : SocketInfo) :
    (socketStep acc s).1 = if s.Retransmits > 5 then StatusWarn else acc.1 := by
  unfold socketStep
  split_ifs <;> rfl

lemma socketLoop_fst (l : List SocketInfo) (acc : String × List String) :
    (l.foldl socketStep acc).1 =
      if ∃ s ∈ l, s.Retransmits > 5 then StatusWarn else acc.1 := by
  induction l generalizing acc with
  | nil => simp
  | cons x rest ih =>
      rw [List.foldl_cons, ih, socketStep_fst]
      by_cases hx : x.Retransmits > 5
      · simp [hx]
      · simp [hx]

/-- C8 (counterexample): on Linux with ss present but the ss invocation
failing, RunSocketStats returns status FAIL, so the probe is not limited to
the OK / WARN / NA statuses. -/
theorem socket_stats_fail_exists :
    (RunSocketStats (SocketStatsEnv.mk true true (some "exit status 1") [])).status
      = StatusFail ∧
    (SocketStatsEnv.mk true true (some "exit status 1") []).goosLinux = true ∧
    (SocketStatsEnv.mk true true (some "exit status 1") []).ssFound = true := by
  exact ⟨rfl, rfl, rfl⟩

/-- C8 (amended): RunSocketStats returns NA when the platform is not Linux or
ss is missing, FAIL when the ss invocation itself fails, WARN when some
parsed socket has more than 5 retransmits, and OK otherwise — these are its
only possible statuses. -/
theorem socket_stats_statuses (env : SocketStatsEnv) :
    (RunSocketStats env).status =
      if ¬ env.goosLinux then StatusNA
      else if ¬ env.ssFound then StatusNA
      else if env.cmdErr.isSome then StatusFail
      else if ∃ s ∈ env.sockets, s.Retransmits > 5 then StatusWarn
      else StatusOK := by
  cases hL : env.goosLinux with
  | false => simp [RunSocketStats, hL]
  | true =>
      cases hS : env.ssFound with
      | false => simp [RunSocketStats, hL, hS]
      | true =>
          cases hE : env.cmdErr with
          | some e => simp [RunSocketStats, hL, hS, hE]
          | none =>
              simp only [RunSocketStats, hL, hS, hE, Bool.not_true, Bool.false_eq_true,
                if_false, Option.isSome_none]
              rw [socketLoop, socketLoop_fst]
              simp

/-- C6 (code_bug evidence): the TCP rate computation's divide-by-zero guard
tests InSegs + OutSegs while the retransmission-rate division divides by
OutSegs alone, so with InSegs = 1, OutSegs = 0, RetransSegs = 1 the guard
passes yet the code divides 1 by 0 (a non-finite float, `none` here) instead
of returning rate 0; the interface rates, whose guard matches their
denominator, return a defined value even on no data. -/
theorem tcp_rate_divzero :
    0 < (TCPStats.mk 1 0 1 0 0).InSegs + (TCPStats.mk 1 0 1 0 0).OutSegs ∧
    (TCPStats.mk 1 0 1 0 0).OutSegs = 0 ∧
    tcpRetransRate (TCPStats.mk 1 0 1 0 0) = none ∧
    interfaceErrorRate [] = some 0 ∧
    interfaceDropRate [] = some 0 := by
  refine ⟨by decide, rfl, ?_, rfl, rfl⟩
  simp [tcpRetransRate, fdiv]

/-- C7 (counterexample): with the supplied context deadline expired, the dns
probe returns FAIL carrying the resolver's raw cancellation error string
untranslated: the message neither names the probe nor contains "timeout". -/
theorem dns_timeout_untranslated :
    (DNSEnv.mk true (some "lookup example.com: context deadline exceeded") 0).ctxDeadlineExceeded
      = true ∧
    (RunDNS (DNSEnv.mk true (some "lookup example.com: context deadline exceeded") 0)).status
      = StatusFail ∧
    (RunDNS (DNSEnv.mk true (some "lookup example.com: context deadline exceeded") 0)).error
      = "lookup example.com: context deadline exceeded" ∧
    strContains
      (RunDNS (DNSEnv.mk true (some "lookup example.com: context deadline exceeded") 0)).error
      ("timeout") = false ∧
    strContains
      (RunDNS (DNSEnv.mk true (some "lookup example.com: context deadline exceeded") 0)).error
      ("dns") = false := by
  refine ⟨rfl, rfl, rfl, by decide, by decide⟩

/-- C7 (amended): the ping and traceroute probes translate an expired context
deadline into status FAIL with the fixed messages "ping timeout" and
"traceroute timeout" (each naming the probe and containing "timeout"), while
the dns probe returns FAIL with the raw resolver error string untranslated,
which need not name the probe or mention "timeout". -/
theorem probe_timeout_translation (pe : PingEnv) (te : TracerouteEnv)
    (de : DNSEnv) (e : String)
    (hpb : pe.binaryFound = true) (hpd : pe.ctxDeadlineExceeded = true)
    (htb : te.binaryFound = true) (htd : te.ctxDeadlineExceeded = true)
    (hde : de.lookupErr = some e) :
    (RunPing pe).status = StatusFail ∧
    (RunPing pe).error = "ping timeout" ∧
    strContains ("ping timeout") ("ping") = true ∧
    strContains ("ping timeout") ("timeout") = true ∧
    (RunTraceroute te).status = StatusFail ∧
    (RunTraceroute te).error = "traceroute timeout" ∧
    strContains ("traceroute timeout") ("traceroute") = true ∧
    strContains ("traceroute timeout") ("timeout") = true ∧
    (RunDNS de).status = StatusFail ∧
    (RunDNS de).error = e := by
  refine ⟨?_, ?_, by decide, by decide, ?_, ?_, by decide, by decide, ?_, ?_⟩
  · simp [RunPing, hpb, hpd]
  · simp [RunPing, hpb, hpd]
  · simp [RunTraceroute, htb, htd]
  · simp [RunTraceroute, htb, htd]
  · simp [RunDNS, hde]
  · simp [RunDNS, hde]

/-- C7 (witness): concrete deadline-expired environments for ping, traceroute
and dns exercising the amended statement. -/
theorem probe_timeout_translation_witness :
    (RunPing (PingEnv.mk true true false "" 0)).status = StatusFail ∧
    (RunPing (PingEnv.mk true true false "" 0)).error = "ping timeout" ∧
    strContains ("ping timeout") ("ping") = true ∧
    strContains ("ping timeout") ("timeout") = true ∧
    (RunTraceroute (TracerouteEnv.mk true true false "" 0)).status = StatusFail ∧
    (RunTraceroute (TracerouteEnv.mk true true false "" 0)).error = "traceroute timeout" ∧
    strContains ("traceroute timeout") ("traceroute") = true ∧
    strContains ("traceroute timeout") ("timeout") = true ∧
    (RunDNS (DNSEnv.mk true (some "lookup 8.8.8.8: context deadline exceeded") 0)).status
      = StatusFail ∧
    (RunDNS (DNSEnv.mk true (some "lookup 8.8.8.8: context deadline exceeded") 0)).error
      = "lookup 8.8.8.8: context deadline exceeded" :=
  probe_timeout_translation (PingEnv.mk true true false "" 0)
    (TracerouteEnv.mk true true false "" 0)
    (DNSEnv.mk true (some "lookup 8.8.8.8: context deadline exceeded") 0)
    ("lookup 8.8.8.8: context deadline exceeded") rfl rfl rfl rfl rfl

end IspHc
